import Mathlib

/-
Verification of the flir-camera-debug repository (src/CameraController.py,
src/flir_camera_debug_tool.py, src/main.py) against its specification.

The Python code is shallowly embedded: pure dispatch logic becomes Lean
functions, stateful objects become explicit state records with step
functions returning the successor state together with the list of observable
events (Qt signal emissions, device-node writes) they produce, and Python
exceptions become an explicit `PyResult` outcome.  Numeric parameter values
(exposure in microseconds, gain in dB, gamma) are embedded as exact
rationals: the Python code only stores and forwards these values, it never
performs floating-point arithmetic on them.
-/

namespace FlirDebug

/-! ## Pixel-format decoding (src/flir_camera_debug_tool.py, lines 72-88)

`test_flir_camera` converts each grabbed image according to its pixel
format with a chain of `if pixel_format == ...` tests.  `SrcFormat` is the
set of formats the chain distinguishes plus a representative of every
other (unknown) format; `ConvKernel` is the vocabulary of OpenCV
conversion operations a branch can invoke (`gray2BGR`, channel
replication via `cv2.COLOR_GRAY2BGR`, is the operation the specification's
words "replicate single channel into 3 channels" denote; it appears in the
vocabulary so the specification can be stated, the source never selects
it). -/

inductive SrcFormat
  | Mono8
  | BayerBG8
  | BayerGB8
  | BayerGR8
  | BayerRG8
  | BGR8
  | RGB8
  | Unknown
  deriving DecidableEq, Repr

inductive ConvKernel
  | colorMapJet
  | bayerBG2BGR
  | bayerGB2BGR
  | bayerGR2BGR
  | bayerRG2BGR
  | rgb2BGR
  | passthrough
  | gray2BGR
  deriving DecidableEq, Repr

/-- The conversion the source selects for each pixel format: the
`if pixel_format == PySpin.PixelFormat_... :` chain of
src/flir_camera_debug_tool.py lines 73-88.  Mono8 takes
`cv2.applyColorMap(image_data, cv2.COLORMAP_JET)`; the four Bayer variants
take the four pattern-specific `cv2.cvtColor` demosaic codes; BGR8 is
passed through; RGB8 is channel-swapped; the trailing `else` passes every
other format through unchanged. -/
def convertKernel : SrcFormat → ConvKernel
  | .Mono8 => .colorMapJet
  | .BayerBG8 => .bayerBG2BGR
  | .BayerGB8 => .bayerGB2BGR
  | .BayerGR8 => .bayerGR2BGR
  | .BayerRG8 => .bayerRG2BGR
  | .BGR8 => .passthrough
  | .RGB8 => .rgb2BGR
  | .Unknown => .passthrough

/-- Error vocabulary of the specification's decode contract.  The source
chain has no error branch; the type exists so the contract can be stated
and compared against the source. -/
inductive DecodeError
  | unsupportedFormat
  deriving DecidableEq, Repr

/-- Decode outcome of the source: the dispatch chain of
src/flir_camera_debug_tool.py lines 72-88 always produces an output buffer
(every branch, the trailing `else` included, binds `rgb_image`), so the
outcome is `ok` of the selected kernel for every format. -/
def decodeTool (f : SrcFormat) : Except DecodeError ConvKernel :=
  Except.ok (convertKernel f)

/-! ## Control facade (src/CameraController.py, class CameraController)

The facade mirrors each parameter into `_gain_value` / `_exposure_value` /
`_gamma_value` / `_gamma_enabled` and into the `_camera_info` map, emits
`infoChanged`, and, when a worker thread is running, forwards the call to
`self.worker.set_...`.  The embedding keeps the numeric payload of each
`_camera_info` entry (the Python code stores a formatted string of the
same number).  Method dispatch on the worker object is explicit:
`cameraWorkerMethods` lists the methods class `CameraWorker` actually
defines, and calling any other name is Python's `AttributeError`. -/

inductive PVal
  | num (v : ℚ)
  | flag (b : Bool)
  deriving DecidableEq, Repr

inductive PyResult (α : Type)
  | ok (a : α)
  | exn (name : String)
  deriving DecidableEq, Repr

/-- Observable events of a facade call: an `infoChanged` signal emission,
the act of forwarding a named method call to the worker object, and a
write of a parameter to a device node (vocabulary needed to state the
claims; the facade paths modelled here never produce one). -/
inductive FEv
  | infoChanged
  | forward (method : String) (v : PVal)
  | deviceWrite (node : String) (v : PVal)
  deriving DecidableEq, Repr

/-- The methods class `CameraWorker` defines (src/CameraController.py
lines 50, 117, 278, 296, 302, 320). -/
def cameraWorkerMethods : List String :=
  ["run", "_setup_camera", "_cleanup", "stop", "capture_photo", "set_display_fps"]

/-- Python attribute lookup plus call on the worker: a method name the
class does not define raises `AttributeError`; the parameter-setter names
the facade uses are not defined, so no branch of this dispatch reaches a
device write. -/
def callWorker (method : String) (v : PVal) : List FEv × PyResult Bool :=
  if method ∈ cameraWorkerMethods then
    ([FEv.forward method v], PyResult.ok true)
  else
    ([FEv.forward method v], PyResult.exn "AttributeError")

/-- Numeric payloads of the `_camera_info` entries the setters touch. -/
structure CamInfo where
  gain : ℚ
  gamma : ℚ
  gammaEnabled : Bool
  exposure : ℚ
  deriving DecidableEq, Repr

/-- Facade state: the cached parameter values set in
`CameraController.__init__` (lines 360-364), the info map, and whether
`self.worker` exists and `isRunning()`. -/
structure Controller where
  gainValue : ℚ
  gammaValue : ℚ
  gammaEnabled : Bool
  exposureValue : ℚ
  info : CamInfo
  workerRunning : Bool
  deriving DecidableEq, Repr

/-- `CameraController.__init__` state (lines 339-364): gain 10.0,
gamma 1.0, gamma disabled, exposure 20000.0, no worker. -/
def initController : Controller :=
  { gainValue := 10
    gammaValue := 1
    gammaEnabled := false
    exposureValue := 20000
    info := { gain := 10, gamma := 1, gammaEnabled := false, exposure := 20000 }
    workerRunning := false }

/-- `CameraController.set_gain` (lines 469-479): unconditionally cache the
value, update the info map, emit `infoChanged`; then forward to
`self.worker.set_gain` when a worker is running, else return `False`. -/
def set_gain (c : Controller) (v : ℚ) : Controller × List FEv × PyResult Bool :=
  let c1 := { c with gainValue := v, info := { c.info with gain := v } }
  if c.workerRunning then
    let (evs, r) := callWorker "set_gain" (PVal.num v)
    (c1, FEv.infoChanged :: evs, r)
  else
    (c1, [FEv.infoChanged], PyResult.ok false)

/-- `CameraController.set_exposure` (lines 481-491), same shape as
`set_gain`. -/
def set_exposure (c : Controller) (v : ℚ) : Controller × List FEv × PyResult Bool :=
  let c1 := { c with exposureValue := v, info := { c.info with exposure := v } }
  if c.workerRunning then
    let (evs, r) := callWorker "set_exposure" (PVal.num v)
    (c1, FEv.infoChanged :: evs, r)
  else
    (c1, [FEv.infoChanged], PyResult.ok false)

/-- `CameraController.set_gamma` (lines 493-503). -/
def set_gamma (c : Controller) (v : ℚ) : Controller × List FEv × PyResult Bool :=
  let c1 := { c with gammaValue := v, info := { c.info with gamma := v } }
  if c.workerRunning then
    let (evs, r) := callWorker "set_gamma" (PVal.num v)
    (c1, FEv.infoChanged :: evs, r)
  else
    (c1, [FEv.infoChanged], PyResult.ok false)

/-- `CameraController.set_gamma_enable` (lines 505-515). -/
def set_gamma_enable (c : Controller) (b : Bool) : Controller × List FEv × PyResult Bool :=
  let c1 := { c with gammaEnabled := b, info := { c.info with gammaEnabled := b } }
  if c.workerRunning then
    let (evs, r) := callWorker "set_gamma_enable" (PVal.flag b)
    (c1, FEv.infoChanged :: evs, r)
  else
    (c1, [FEv.infoChanged], PyResult.ok false)

def isInfoChanged : FEv → Bool
  | .infoChanged => true
  | _ => false

def isDeviceWrite : FEv → Bool
  | .deviceWrite _ _ => true
  | _ => false

def countInfoChanged (evs : List FEv) : Nat :=
  (evs.filter isInfoChanged).length

def countDeviceWrites (evs : List FEv) : Nat :=
  (evs.filter isDeviceWrite).length

/-- Event trace of calling `set_gain` twice in a row with the same value. -/
def set_gain_twice (c : Controller) (v : ℚ) : List FEv :=
  let r1 := set_gain c v
  let r2 := set_gain r1.1 v
  r1.2.1 ++ r2.2.1

def set_exposure_twice (c : Controller) (v : ℚ) : List FEv :=
  let r1 := set_exposure c v
  let r2 := set_exposure r1.1 v
  r1.2.1 ++ r2.2.1

def set_gamma_twice (c : Controller) (v : ℚ) : List FEv :=
  let r1 := set_gamma c v
  let r2 := set_gamma r1.1 v
  r1.2.1 ++ r2.2.1

def set_gamma_enable_twice (c : Controller) (b : Bool) : List FEv :=
  let r1 := set_gamma_enable c b
  let r2 := set_gamma_enable r1.1 b
  r1.2.1 ++ r2.2.1

/-! ## Camera setup (src/CameraController.py, `CameraWorker._setup_camera`, lines 117-276)

`_setup_camera` issues a fixed sequence of device-node accesses, each
guarded by `IsAvailable`/`IsWritable` checks.  The embedding records the
sequence of node writes (`NodeOp`) and the `info_updated` signal emissions
(`SetupEv`) as a function of the device environment (`SetupEnv`: which
nodes/entries the device reports available or writable, and the
device-reported ranges) and the worker's configuration fields set in
`CameraWorker.__init__` (lines 24-48). -/

structure WorkerConfig where
  targetWidth : Int
  targetHeight : Int
  targetFps : ℚ
  autoExposure : Bool
  autoGain : Bool
  exposureTime : ℚ
  gain : ℚ
  gamma : ℚ
  gammaEnable : Bool
  packetSize : Int
  packetDelay : Int
  autoPacketSize : Bool
  deriving DecidableEq, Repr

/-- `CameraWorker.__init__` (lines 24-48): 1936x1464, 30 fps target,
auto-exposure flag off, auto-gain flag on, exposure 20000 us, gain 15.0 dB,
gamma 0.7 enabled, packet size 9000, packet delay 2000, auto packet size
off. -/
def initWorkerConfig : WorkerConfig :=
  { targetWidth := 1936
    targetHeight := 1464
    targetFps := 30
    autoExposure := false
    autoGain := true
    exposureTime := 20000
    gain := 15
    gamma := 7/10
    gammaEnable := true
    packetSize := 9000
    packetDelay := 2000
    autoPacketSize := false }

/-- Device environment observed by `_setup_camera`: availability and
writability of each node/entry it touches and the device-reported ranges.
`expMin`/`expMax` and `gainMin`/`gainMax` are the device-reported exposure
and gain ranges; the source never queries them (no `GetMin`/`GetMax` call
on those nodes), they are part of the environment so range claims can be
stated. -/
structure SetupEnv where
  psAvail : Bool
  psWritable : Bool
  psMin : Int
  psMax : Int
  autoPsAvail : Bool
  autoPsWritable : Bool
  autoPsEntryAvail : Bool
  pdAvail : Bool
  pdWritable : Bool
  bufAvail : Bool
  bufWritable : Bool
  bufNewestOnlyAvail : Bool
  widthAvail : Bool
  heightAvail : Bool
  pfAvail : Bool
  pfEntryAvail : String → Bool
  fpsAvail : Bool
  fpsMax : ℚ
  expAutoAvail : Bool
  expAutoOffAvail : Bool
  expAvail : Bool
  expMin : ℚ
  expMax : ℚ
  gainAutoAvail : Bool
  gainAutoContAvail : Bool
  gainAvail : Bool
  gainMin : ℚ
  gainMax : ℚ
  gammaEnAvail : Bool
  gammaAvail : Bool

inductive NodeOp
  | setInt (node : String) (v : Int)
  | setEnum (node : String) (entry : String)
  | setFloat (node : String) (v : ℚ)
  | setBool (node : String) (v : Bool)
  deriving DecidableEq, Repr

def NodeOp.node : NodeOp → String
  | .setInt n _ => n
  | .setEnum n _ => n
  | .setFloat n _ => n
  | .setBool n _ => n

inductive SetupEv
  | infoPacketSize (v : Int)
  | infoResolution (w h : Int)
  | infoPixelFormat (s : String)
  deriving DecidableEq, Repr

/-- Lines 124-147: if the `StreamPacketSize` node is available and
writable, write 9000 when the node's max allows it, otherwise write the
node's max (and store it back into `self.packet_size`). -/
def packetSizeOps (env : SetupEnv) (cfg : WorkerConfig) : List NodeOp :=
  if env.psAvail && env.psWritable then
    if cfg.packetSize ≤ env.psMax then [NodeOp.setInt "StreamPacketSize" cfg.packetSize]
    else [NodeOp.setInt "StreamPacketSize" env.psMax]
  else []

/-- The `info_updated("packet_size", ...)` emission of line 142, carrying
the value of `self.packet_size` after the write (the clamped value in the
else-branch). -/
def packetSizeEvs (env : SetupEnv) (cfg : WorkerConfig) : List SetupEv :=
  if env.psAvail && env.psWritable then
    if cfg.packetSize ≤ env.psMax then [SetupEv.infoPacketSize cfg.packetSize]
    else [SetupEv.infoPacketSize env.psMax]
  else []

/-- `self.packet_size` after the packet-size section (line 138 stores the
clamped maximum back). -/
def cfgAfterPacket (env : SetupEnv) (cfg : WorkerConfig) : WorkerConfig :=
  if env.psAvail && env.psWritable then
    if cfg.packetSize ≤ env.psMax then cfg
    else { cfg with packetSize := env.psMax }
  else cfg

/-- Lines 149-162: `StreamAutoNegotiatePacketSize` set to "Off" (the
`auto_packet_size` flag is `False`) or "On", when node and entry are
available. -/
def autoPacketOps (env : SetupEnv) (cfg : WorkerConfig) : List NodeOp :=
  if env.autoPsAvail && env.autoPsWritable then
    if env.autoPsEntryAvail then
      [NodeOp.setEnum "StreamAutoNegotiatePacketSize" (if cfg.autoPacketSize then "On" else "Off")]
    else []
  else []

/-- Lines 164-171: `GevSCPD` packet delay. -/
def packetDelayOps (env : SetupEnv) (cfg : WorkerConfig) : List NodeOp :=
  if env.pdAvail && env.pdWritable then [NodeOp.setInt "GevSCPD" cfg.packetDelay]
  else []

/-- Lines 173-182: `StreamBufferHandlingMode` set to "NewestOnly". -/
def bufferModeOps (env : SetupEnv) : List NodeOp :=
  if env.bufAvail && env.bufWritable then
    if env.bufNewestOnlyAvail then [NodeOp.setEnum "StreamBufferHandlingMode" "NewestOnly"]
    else []
  else []

/-- Lines 186-193: `Width` and `Height` writes, each guarded only by
availability. -/
def resolutionOps (env : SetupEnv) (cfg : WorkerConfig) : List NodeOp :=
  (if env.widthAvail then [NodeOp.setInt "Width" cfg.targetWidth] else []) ++
  (if env.heightAvail then [NodeOp.setInt "Height" cfg.targetHeight] else [])

/-- Order of the pixel-format candidates of line 201. -/
def pixelFormatCandidates : List String :=
  ["Mono8", "BayerBG8", "BayerRG8", "BayerGB8", "BayerGR8", "RGB8", "BGR8"]

/-- Lines 197-208: write the first available entry of the candidate list
to `PixelFormat` and break. -/
def pixelFormatOps (env : SetupEnv) : List NodeOp :=
  if env.pfAvail then
    match pixelFormatCandidates.find? env.pfEntryAvail with
    | some fmt => [NodeOp.setEnum "PixelFormat" fmt]
    | none => []
  else []

def pixelFormatEvs (env : SetupEnv) : List SetupEv :=
  if env.pfAvail then
    match pixelFormatCandidates.find? env.pfEntryAvail with
    | some fmt => [SetupEv.infoPixelFormat fmt]
    | none => []
  else []

/-- Lines 211-224: clamp `target_fps` down to the node's reported max,
then write it. -/
def fpsOps (env : SetupEnv) (cfg : WorkerConfig) : List NodeOp :=
  if env.fpsAvail then
    [NodeOp.setFloat "AcquisitionFrameRate" (if env.fpsMax < cfg.targetFps then env.fpsMax else cfg.targetFps)]
  else []

def cfgAfterFps (env : SetupEnv) (cfg : WorkerConfig) : WorkerConfig :=
  if env.fpsAvail then
    if env.fpsMax < cfg.targetFps then { cfg with targetFps := env.fpsMax } else cfg
  else cfg

/-- Lines 227-235: `ExposureAuto` set to the "Off" entry. -/
def exposureAutoOps (env : SetupEnv) : List NodeOp :=
  if env.expAutoAvail then
    if env.expAutoOffAvail then [NodeOp.setEnum "ExposureAuto" "Off"] else []
  else []

/-- Lines 238-241: `ExposureTime` written with `self.exposure_time`
directly — no range query, no clamping. -/
def exposureOps (env : SetupEnv) (cfg : WorkerConfig) : List NodeOp :=
  if env.expAvail then [NodeOp.setFloat "ExposureTime" cfg.exposureTime] else []

/-- Lines 244-252: `GainAuto` set to the "Continuous" entry. -/
def gainAutoOps (env : SetupEnv) : List NodeOp :=
  if env.gainAutoAvail then
    if env.gainAutoContAvail then [NodeOp.setEnum "GainAuto" "Continuous"] else []
  else []

/-- Lines 255-258: `Gain` written with `self.gain` directly — no range
query, no clamping. -/
def gainOps (env : SetupEnv) (cfg : WorkerConfig) : List NodeOp :=
  if env.gainAvail then [NodeOp.setFloat "Gain" cfg.gain] else []

/-- Lines 261-273: `GammaEnable` written, and when gamma is enabled the
`Gamma` value too. -/
def gammaOps (env : SetupEnv) (cfg : WorkerConfig) : List NodeOp :=
  (if env.gammaEnAvail then [NodeOp.setBool "GammaEnable" cfg.gammaEnable] else []) ++
  (if cfg.gammaEnable then
    (if env.gammaAvail then [NodeOp.setFloat "Gamma" cfg.gamma] else [])
  else [])

/-- The node-write trace of `_setup_camera`, sections in source order.
Only the packet-size section mutates a configuration field read by a
later section's write (none is), so later sections read the threaded
configuration. -/
def setupOps (env : SetupEnv) (cfg : WorkerConfig) : List NodeOp :=
  let c1 := cfgAfterPacket env cfg
  let c2 := cfgAfterFps env c1
  packetSizeOps env cfg ++ autoPacketOps env c1 ++ packetDelayOps env c1 ++
  bufferModeOps env ++ resolutionOps env c1 ++ pixelFormatOps env ++
  fpsOps env c1 ++ exposureAutoOps env ++ exposureOps env c2 ++
  gainAutoOps env ++ gainOps env c2 ++ gammaOps env c2

/-- The `info_updated` emissions of `_setup_camera` (packet size line 142,
resolution line 195, pixel format line 207). -/
def setupEvs (env : SetupEnv) (cfg : WorkerConfig) : List SetupEv :=
  packetSizeEvs env cfg ++
  [SetupEv.infoResolution cfg.targetWidth cfg.targetHeight] ++
  pixelFormatEvs env

/-- Worker configuration after `_setup_camera` returns. -/
def setupCfgFinal (env : SetupEnv) (cfg : WorkerConfig) : WorkerConfig :=
  cfgAfterFps env (cfgAfterPacket env cfg)

/-! ### Auto-mode tracking

`trackWrites autoNode writeNode ops s` replays the node-write trace from
initial auto-mode entry `s` (the device's power-on state of `autoNode`)
and records, for each write to `writeNode`, the entry `autoNode` held at
that moment. -/

def trackWrites (autoNode writeNode : String) : List NodeOp → String → List String
  | [], _ => []
  | NodeOp.setEnum n e :: rest, s =>
      if n = autoNode then trackWrites autoNode writeNode rest e
      else trackWrites autoNode writeNode rest s
  | NodeOp.setFloat n _ :: rest, s =>
      if n = writeNode then s :: trackWrites autoNode writeNode rest s
      else trackWrites autoNode writeNode rest s
  | _ :: rest, s => trackWrites autoNode writeNode rest s

/-- The entry `autoNode` holds after replaying `ops` from `s`. -/
def autoAfter (autoNode : String) : List NodeOp → String → String
  | [], s => s
  | NodeOp.setEnum n e :: rest, s =>
      if n = autoNode then autoAfter autoNode rest e else autoAfter autoNode rest s
  | _ :: rest, s => autoAfter autoNode rest s

/-! ## Worker lifecycle (src/CameraController.py, `CameraWorker.run` lines
50-115, `_cleanup` lines 278-294, `stop` lines 296-300)

`run` is a `try`/`except`/`finally`: the zero-camera branch returns early,
any startup exception is caught and reported through `error_occurred`, and
`_cleanup` runs in the `finally` on every path.  The read loop itself only
exits when `self.running` is cleared (every per-frame exception is caught
by the inner `except` of lines 107-109 and the loop continues), so the
embedding's environment carries the device count, an optional startup
failure, and which cleanup step fails. -/

structure WorkerState where
  systemHeld : Bool
  cameraHeld : Bool
  running : Bool
  deriving DecidableEq, Repr

structure RunEnv where
  numCameras : Nat
  startupFails : Option String
  endAcqFails : Bool
  deInitFails : Bool
  releaseFails : Bool
  deriving DecidableEq, Repr

inductive RunEv
  | errorOccurred (msg : String)
  | statusChanged (msg : String)
  | cleanupEntered
  deriving DecidableEq, Repr

/-- `CameraWorker._cleanup` (lines 278-294): clear `running`, then one
`try` block holding every release step — end acquisition, de-init and drop
the camera, release the system instance — with a single `except` that logs
and returns.  The boolean result records whether that `except` branch ran
(the exception is caught, never re-thrown); a step that raises skips every
later step of the block. -/
def cleanupModel (env : RunEnv) (st : WorkerState) : WorkerState × Bool :=
  let st0 := { st with running := false }
  if st0.cameraHeld then
    if env.endAcqFails then (st0, true)
    else if env.deInitFails then (st0, true)
    else
      let st1 := { st0 with cameraHeld := false }
      if st1.systemHeld then
        if env.releaseFails then (st1, true)
        else ({ st1 with systemHeld := false }, false)
      else (st1, false)
  else
    if st0.systemHeld then
      if env.releaseFails then (st0, true)
      else ({ st0 with systemHeld := false }, false)
    else (st0, false)

/-- `CameraWorker.run` (lines 50-115).  `PySpin.System.GetInstance()`
acquires the system handle; with zero cameras the method emits
`error_occurred("Камеры не найдены")` and returns (line 60); otherwise it
opens the camera, and either a startup exception is caught by the outer
`except` (line 111, re-emitted as `error_occurred`) or streaming starts
and the loop runs until `stop()` clears `running`.  The `finally` of line
114 invokes `_cleanup` on every one of these paths (`cleanupEntered`
records its invocation); `run` itself never propagates an exception. -/
def runModel (env : RunEnv) : WorkerState × List RunEv × PyResult Unit :=
  let st0 : WorkerState := { systemHeld := true, cameraHeld := false, running := false }
  if env.numCameras = 0 then
    ((cleanupModel env st0).1,
     [RunEv.errorOccurred "Камеры не найдены", RunEv.cleanupEntered], PyResult.ok ())
  else
    let st1 := { st0 with cameraHeld := true }
    match env.startupFails with
    | some msg =>
        ((cleanupModel env st1).1,
         [RunEv.errorOccurred msg, RunEv.cleanupEntered], PyResult.ok ())
    | none =>
        ((cleanupModel env { st1 with running := false }).1,
         [RunEv.statusChanged "Камера запущена", RunEv.cleanupEntered], PyResult.ok ())

/-- `CameraWorker.stop` (lines 296-300): clear `running` and join the
thread (the bounded `wait(2000)` has no effect on the embedded state). -/
def stopModel (st : WorkerState) : WorkerState :=
  { st with running := false }

/-- Per-iteration outcome of `GetNextImage` plus conversion in the read
loop (lines 75-109): an incomplete transport frame, an exception raised
while handling the frame, or a converted frame. -/
inductive FrameOutcome
  | incomplete
  | frameRaises (msg : String)
  | frame (bytes : List Nat)
  deriving DecidableEq, Repr

/-- One iteration of the read loop: an incomplete frame is released and
skipped (lines 79-81), an exception is caught by the inner `except` of
lines 107-109 and the loop continues, a good frame is published.  The
boolean records whether the loop continues to the next iteration. -/
def readLoopStep (o : FrameOutcome) : List (List Nat) × Bool :=
  match o with
  | .incomplete => ([], true)
  | .frameRaises _ => ([], true)
  | .frame b => ([b], true)

/-! ## Frame hand-off (src/CameraController.py, lines 85-93 and 302-314)

The capture thread stores `qimage.copy()` into `self.last_valid_frame`
under `self.mutex` (lines 86-87); `capture_photo` reads
`self.last_valid_frame.copy()` under the same mutex (lines 305-306), with
`QImage()` as the placeholder before the first publish.  Both critical
sections are guarded by the one shared `QMutex`, so any interleaving of
the two threads is a serialization of atomic publish/read steps; the
embedding replays such a serialization.  Buffers carry an identity (`id`):
every `copy()` allocates a fresh identity, so aliasing is visible as
identity equality. -/

structure Frame where
  id : Nat
  bytes : List Nat
  deriving DecidableEq, Repr

inductive SinkOp
  | publish (bytes : List Nat)
  | read
  deriving DecidableEq, Repr

structure SinkState where
  slot : Option Frame
  next : Nat
  producerIds : List Nat
  deriving DecidableEq, Repr

def initSink : SinkState :=
  { slot := none, next := 0, producerIds := [] }

/-- One atomic critical section.  `publish bytes`: the producer's decoded
`qimage` occupies buffer `next`, and the stored `qimage.copy()` of line 87
occupies fresh buffer `next + 1`; both identities belong to the producer
side.  `read`: `capture_photo` returns `last_valid_frame.copy()` (a fresh
buffer holding the slot's bytes) or the `QImage()` placeholder (`none`)
when nothing was published yet. -/
def sinkStep (st : SinkState) (op : SinkOp) : SinkState × Option (Option Frame) :=
  match op with
  | .publish bytes =>
      ({ slot := some { id := st.next + 1, bytes := bytes }, next := st.next + 2,
         producerIds := st.next :: (st.next + 1) :: st.producerIds }, none)
  | .read =>
      match st.slot with
      | some f => ({ st with next := st.next + 1 }, some (some { id := st.next, bytes := f.bytes }))
      | none => (st, some none)

/-- Replay a serialization of critical sections, collecting the reader's
results. -/
def runSink : SinkState → List SinkOp → SinkState × List (Option Frame)
  | st, [] => (st, [])
  | st, op :: rest =>
      let p := sinkStep st op
      let q := runSink p.1 rest
      (q.1, match p.2 with
            | some x => x :: q.2
            | none => q.2)

/-- The byte buffers published over a trace. -/
def publishedBytes (ops : List SinkOp) : List (List Nat) :=
  ops.filterMap fun op =>
    match op with
    | .publish b => some b
    | .read => none

/-! ## Concrete instances used by witnesses and counterexamples -/

/-- A fully cooperative device: every node and entry available and
writable, packet max 9000, fps max 60, exposure range [8, 30000] us,
gain range [0, 47] dB. -/
def envAll : SetupEnv :=
  { psAvail := true, psWritable := true, psMin := 576, psMax := 9000,
    autoPsAvail := true, autoPsWritable := true, autoPsEntryAvail := true,
    pdAvail := true, pdWritable := true,
    bufAvail := true, bufWritable := true, bufNewestOnlyAvail := true,
    widthAvail := true, heightAvail := true,
    pfAvail := true, pfEntryAvail := fun _ => true,
    fpsAvail := true, fpsMax := 60,
    expAutoAvail := true, expAutoOffAvail := true,
    expAvail := true, expMin := 8, expMax := 30000,
    gainAutoAvail := true, gainAutoContAvail := true,
    gainAvail := true, gainMin := 0, gainMax := 47,
    gammaEnAvail := true, gammaAvail := true }

/-- Same device but with a reported exposure maximum of 10000 us, below
the worker's requested 20000 us. -/
def envSmallExp : SetupEnv :=
  { envAll with expMax := 10000 }

/-- Facade state with a worker constructed and `isRunning()` true. -/
def streamingController : Controller :=
  { initController with workerRunning := true }

/-- Cleanup environment where `EndAcquisition()` raises. -/
def envEndAcqFail : RunEnv :=
  { numCameras := 1, startupFails := none, endAcqFails := true,
    deInitFails := false, releaseFails := false }

/-- Run environment with no cameras attached and a well-behaved system
handle. -/
def envNoCamera : RunEnv :=
  { numCameras := 0, startupFails := none, endAcqFails := false,
    deInitFails := false, releaseFails := false }

/-- Device whose packet-size maximum (1500, no jumbo frames) and
frame-rate maximum (25 fps) are both below the worker's requested
values. -/
def envClampWit : SetupEnv :=
  { envAll with psMax := 1500, fpsMax := 25 }

/-! ## Helper lemmas -/

theorem autoAfter_nil (a : String) (s : String) : autoAfter a [] s = s := rfl

theorem trackWrites_append (a w : String) (l1 l2 : List NodeOp) (s : String) :
    trackWrites a w (l1 ++ l2) s =
      trackWrites a w l1 s ++ trackWrites a w l2 (autoAfter a l1 s) := by
  induction l1 generalizing s with
  | nil => simp [trackWrites, autoAfter]
  | cons op rest ih =>
    cases op with
    | setInt n v => simp [trackWrites, autoAfter, ih]
    | setBool n v => simp [trackWrites, autoAfter, ih]
    | setEnum n e =>
      by_cases h : n = a <;> simp [trackWrites, autoAfter, h, ih]
    | setFloat n v =>
      by_cases h : n = w <;> simp [trackWrites, autoAfter, h, ih]

theorem trackWrites_nil_of (a w : String) (l : List NodeOp) (s : String)
    (h : ∀ op ∈ l, NodeOp.node op ≠ a ∧ NodeOp.node op ≠ w) :
    trackWrites a w l s = [] ∧ autoAfter a l s = s := by
  induction l generalizing s with
  | nil => simp [trackWrites, autoAfter]
  | cons op rest ih =>
    have hop := h op (by simp)
    have hrest : ∀ op ∈ rest, NodeOp.node op ≠ a ∧ NodeOp.node op ≠ w :=
      fun o ho => h o (by simp [ho])
    cases op with
    | setInt n v => simpa [trackWrites, autoAfter] using ih s hrest
    | setBool n v => simpa [trackWrites, autoAfter] using ih s hrest
    | setEnum n e =>
      have : n ≠ a := by simpa [NodeOp.node] using hop.1
      simpa [trackWrites, autoAfter, this] using ih s hrest
    | setFloat n v =>
      have : n ≠ w := by simpa [NodeOp.node] using hop.2
      simpa [trackWrites, autoAfter, this] using ih s hrest

theorem trackWrites_skip (a w : String) (l1 l2 : List NodeOp) (s : String)
    (h : ∀ op ∈ l1, NodeOp.node op ≠ a ∧ NodeOp.node op ≠ w) :
    trackWrites a w (l1 ++ l2) s = trackWrites a w l2 s := by
  rcases trackWrites_nil_of a w l1 s h with ⟨h1, h2⟩
  rw [trackWrites_append, h1, h2, List.nil_append]

theorem node_notin (a w : String) (names : List String) (l : List NodeOp)
    (hl : ∀ op ∈ l, NodeOp.node op ∈ names)
    (hn : ∀ x ∈ names, x ≠ a ∧ x ≠ w) :
    ∀ op ∈ l, NodeOp.node op ≠ a ∧ NodeOp.node op ≠ w :=
  fun op hop => hn _ (hl op hop)

theorem packetSizeOps_nodes (env : SetupEnv) (cfg : WorkerConfig) :
    ∀ op ∈ packetSizeOps env cfg, NodeOp.node op ∈ ["StreamPacketSize"] := by
  intro op hop
  unfold packetSizeOps at hop
  split at hop
  · split at hop <;> simp_all [NodeOp.node]
  · simp at hop

theorem autoPacketOps_nodes (env : SetupEnv) (cfg : WorkerConfig) :
    ∀ op ∈ autoPacketOps env cfg, NodeOp.node op ∈ ["StreamAutoNegotiatePacketSize"] := by
  intro op hop
  unfold autoPacketOps at hop
  split at hop
  · split at hop <;> simp_all [NodeOp.node]
  · simp at hop

theorem packetDelayOps_nodes (env : SetupEnv) (cfg : WorkerConfig) :
    ∀ op ∈ packetDelayOps env cfg, NodeOp.node op ∈ ["GevSCPD"] := by
  intro op hop
  unfold packetDelayOps at hop
  split at hop <;> simp_all [NodeOp.node]

theorem bufferModeOps_nodes (env : SetupEnv) :
    ∀ op ∈ bufferModeOps env, NodeOp.node op ∈ ["StreamBufferHandlingMode"] := by
  intro op hop
  unfold bufferModeOps at hop
  split at hop
  · split at hop <;> simp_all [NodeOp.node]
  · simp at hop

theorem resolutionOps_nodes (env : SetupEnv) (cfg : WorkerConfig) :
    ∀ op ∈ resolutionOps env cfg, NodeOp.node op ∈ ["Width", "Height"] := by
  intro op hop
  unfold resolutionOps at hop
  rcases List.mem_append.mp hop with h | h <;> (split at h <;> simp_all [NodeOp.node])

theorem pixelFormatOps_nodes (env : SetupEnv) :
    ∀ op ∈ pixelFormatOps env, NodeOp.node op ∈ ["PixelFormat"] := by
  intro op hop
  unfold pixelFormatOps at hop
  split at hop
  · split at hop <;> simp_all [NodeOp.node]
  · simp at hop

theorem fpsOps_nodes (env : SetupEnv) (cfg : WorkerConfig) :
    ∀ op ∈ fpsOps env cfg, NodeOp.node op ∈ ["AcquisitionFrameRate"] := by
  intro op hop
  unfold fpsOps at hop
  split at hop <;> simp_all [NodeOp.node]

theorem exposureAutoOps_nodes (env : SetupEnv) :
    ∀ op ∈ exposureAutoOps env, NodeOp.node op ∈ ["ExposureAuto"] := by
  intro op hop
  unfold exposureAutoOps at hop
  split at hop
  · split at hop <;> simp_all [NodeOp.node]
  · simp at hop

theorem exposureOps_nodes (env : SetupEnv) (cfg : WorkerConfig) :
    ∀ op ∈ exposureOps env cfg, NodeOp.node op ∈ ["ExposureTime"] := by
  intro op hop
  unfold exposureOps at hop
  split at hop <;> simp_all [NodeOp.node]

theorem gainAutoOps_nodes (env : SetupEnv) :
    ∀ op ∈ gainAutoOps env, NodeOp.node op ∈ ["GainAuto"] := by
  intro op hop
  unfold gainAutoOps at hop
  split at hop
  · split at hop <;> simp_all [NodeOp.node]
  · simp at hop

theorem gainOps_nodes (env : SetupEnv) (cfg : WorkerConfig) :
    ∀ op ∈ gainOps env cfg, NodeOp.node op ∈ ["Gain"] := by
  intro op hop
  unfold gainOps at hop
  split at hop <;> simp_all [NodeOp.node]

theorem gammaOps_nodes (env : SetupEnv) (cfg : WorkerConfig) :
    ∀ op ∈ gammaOps env cfg, NodeOp.node op ∈ ["GammaEnable", "Gamma"] := by
  intro op hop
  unfold gammaOps at hop
  rcases List.mem_append.mp hop with h | h
  · split at h <;> simp_all [NodeOp.node]
  · split at h
    · split at h <;> simp_all [NodeOp.node]
    · simp at h

theorem cfgAfterPacket_exposureTime (env : SetupEnv) (cfg : WorkerConfig) :
    (cfgAfterPacket env cfg).exposureTime = cfg.exposureTime := by
  unfold cfgAfterPacket
  split
  · split <;> rfl
  · rfl

theorem cfgAfterPacket_targetFps (env : SetupEnv) (cfg : WorkerConfig) :
    (cfgAfterPacket env cfg).targetFps = cfg.targetFps := by
  unfold cfgAfterPacket
  split
  · split <;> rfl
  · rfl

theorem cfgAfterPacket_packetSize_clamped (env : SetupEnv) (cfg : WorkerConfig)
    (h1 : env.psAvail = true) (h2 : env.psWritable = true)
    (h3 : env.psMax < cfg.packetSize) :
    (cfgAfterPacket env cfg).packetSize = env.psMax := by
  unfold cfgAfterPacket
  rw [h1, h2]
  simp [not_le.mpr h3]

theorem cfgAfterFps_exposureTime (env : SetupEnv) (cfg : WorkerConfig) :
    (cfgAfterFps env cfg).exposureTime = cfg.exposureTime := by
  unfold cfgAfterFps
  split
  · split <;> rfl
  · rfl

theorem cfgAfterFps_packetSize (env : SetupEnv) (cfg : WorkerConfig) :
    (cfgAfterFps env cfg).packetSize = cfg.packetSize := by
  unfold cfgAfterFps
  split
  · split <;> rfl
  · rfl

theorem tail_after_exposure_nodes (env : SetupEnv) (cfg : WorkerConfig) :
    ∀ op ∈ gainAutoOps env ++ (gainOps env cfg ++ gammaOps env cfg),
      NodeOp.node op ∈ ["GainAuto", "Gain", "GammaEnable", "Gamma"] := by
  intro op hop
  rcases List.mem_append.mp hop with h | h
  · have := gainAutoOps_nodes env op h
    simp_all
  · rcases List.mem_append.mp h with h2 | h2
    · have := gainOps_nodes env cfg op h2
      simp_all
    · have := gammaOps_nodes env cfg op h2
      simp_all

theorem gammaOps_notin_gain (env : SetupEnv) (cfg : WorkerConfig) (t : String) :
    trackWrites "GainAuto" "Gain" (gammaOps env cfg) t = [] :=
  (trackWrites_nil_of _ _ _ _
    (node_notin _ _ _ _ (gammaOps_nodes env cfg) (by decide))).1

/-- Replay of `_setup_camera`'s node writes for the exposure pair: when
the `ExposureAuto` node and its "Off" entry are available, the single
`ExposureTime` write (present iff the node is available) happens with
`ExposureAuto` at "Off", whatever entry `s` the device powered up in. -/
theorem trackWrites_setup_exposure (env : SetupEnv) (cfg : WorkerConfig) (s : String)
    (h1 : env.expAutoAvail = true) (h2 : env.expAutoOffAvail = true) :
    trackWrites "ExposureAuto" "ExposureTime" (setupOps env cfg) s
      = if env.expAvail then ["Off"] else [] := by
  unfold setupOps
  simp only [List.append_assoc]
  rw [trackWrites_skip _ _ _ _ _
      (node_notin _ _ _ _ (packetSizeOps_nodes env cfg) (by decide))]
  rw [trackWrites_skip _ _ _ _ _
      (node_notin _ _ _ _ (autoPacketOps_nodes env _) (by decide))]
  rw [trackWrites_skip _ _ _ _ _
      (node_notin _ _ _ _ (packetDelayOps_nodes env _) (by decide))]
  rw [trackWrites_skip _ _ _ _ _
      (node_notin _ _ _ _ (bufferModeOps_nodes env) (by decide))]
  rw [trackWrites_skip _ _ _ _ _
      (node_notin _ _ _ _ (resolutionOps_nodes env _) (by decide))]
  rw [trackWrites_skip _ _ _ _ _
      (node_notin _ _ _ _ (pixelFormatOps_nodes env) (by decide))]
  rw [trackWrites_skip _ _ _ _ _
      (node_notin _ _ _ _ (fpsOps_nodes env _) (by decide))]
  rw [(by simp [exposureAutoOps, h1, h2] :
        exposureAutoOps env = [NodeOp.setEnum "ExposureAuto" "Off"])]
  have htail := (trackWrites_nil_of "ExposureAuto" "ExposureTime"
      (gainAutoOps env ++ (gainOps env (cfgAfterFps env (cfgAfterPacket env cfg)) ++
        gammaOps env (cfgAfterFps env (cfgAfterPacket env cfg)))) "Off"
      (node_notin "ExposureAuto" "ExposureTime" ["GainAuto", "Gain", "GammaEnable", "Gamma"] _
        (tail_after_exposure_nodes env (cfgAfterFps env (cfgAfterPacket env cfg)))
        (by decide))).1
  by_cases hE : env.expAvail = true
  · rw [(by simp [exposureOps, hE] :
          exposureOps env (cfgAfterFps env (cfgAfterPacket env cfg))
            = [NodeOp.setFloat "ExposureTime"
                (cfgAfterFps env (cfgAfterPacket env cfg)).exposureTime])]
    simp only [List.cons_append, List.nil_append, List.append_eq, trackWrites, hE, if_true,
      reduceIte]
    simp [htail]
  · rw [(by simp [exposureOps, hE] :
          exposureOps env (cfgAfterFps env (cfgAfterPacket env cfg)) = ([] : List NodeOp))]
    simp only [List.cons_append, List.nil_append, List.append_eq, trackWrites, hE, if_false,
      Bool.false_eq_true, reduceIte]
    simp [htail]

/-- Replay of `_setup_camera`'s node writes for the gain pair: when the
`GainAuto` node and its "Continuous" entry are available, the single
`Gain` write (present iff the node is available) happens with `GainAuto`
at "Continuous" — auto-gain enabled — whatever entry `t` the device
powered up in. -/
theorem trackWrites_setup_gain (env : SetupEnv) (cfg : WorkerConfig) (t : String)
    (h3 : env.gainAutoAvail = true) (h4 : env.gainAutoContAvail = true) :
    trackWrites "GainAuto" "Gain" (setupOps env cfg) t
      = if env.gainAvail then ["Continuous"] else [] := by
  unfold setupOps
  simp only [List.append_assoc]
  rw [trackWrites_skip _ _ _ _ _
      (node_notin _ _ _ _ (packetSizeOps_nodes env cfg) (by decide))]
  rw [trackWrites_skip _ _ _ _ _
      (node_notin _ _ _ _ (autoPacketOps_nodes env _) (by decide))]
  rw [trackWrites_skip _ _ _ _ _
      (node_notin _ _ _ _ (packetDelayOps_nodes env _) (by decide))]
  rw [trackWrites_skip _ _ _ _ _
      (node_notin _ _ _ _ (bufferModeOps_nodes env) (by decide))]
  rw [trackWrites_skip _ _ _ _ _
      (node_notin _ _ _ _ (resolutionOps_nodes env _) (by decide))]
  rw [trackWrites_skip _ _ _ _ _
      (node_notin _ _ _ _ (pixelFormatOps_nodes env) (by decide))]
  rw [trackWrites_skip _ _ _ _ _
      (node_notin _ _ _ _ (fpsOps_nodes env _) (by decide))]
  rw [trackWrites_skip _ _ _ _ _
      (node_notin _ _ _ _ (exposureAutoOps_nodes env) (by decide))]
  rw [trackWrites_skip _ _ _ _ _
      (node_notin _ _ _ _ (exposureOps_nodes env _) (by decide))]
  rw [(by simp [gainAutoOps, h3, h4] :
        gainAutoOps env = [NodeOp.setEnum "GainAuto" "Continuous"])]
  have htail := gammaOps_notin_gain env (cfgAfterFps env (cfgAfterPacket env cfg)) "Continuous"
  by_cases hG : env.gainAvail = true
  · rw [(by simp [gainOps, hG] :
          gainOps env (cfgAfterFps env (cfgAfterPacket env cfg))
            = [NodeOp.setFloat "Gain"
                (cfgAfterFps env (cfgAfterPacket env cfg)).gain])]
    simp only [List.cons_append, List.nil_append, List.append_eq, trackWrites, hG, if_true,
      reduceIte]
    simp [htail]
  · rw [(by simp [gainOps, hG] :
          gainOps env (cfgAfterFps env (cfgAfterPacket env cfg)) = ([] : List NodeOp))]
    simp only [List.cons_append, List.nil_append, List.append_eq, trackWrites, hG, if_false,
      Bool.false_eq_true, reduceIte]
    simp [htail]

theorem runSink_producerIds (ops : List SinkOp) (st : SinkState) :
    ∀ x ∈ (runSink st ops).1.producerIds, x ∈ st.producerIds ∨ st.next ≤ x := by
  induction ops generalizing st with
  | nil =>
    intro x hx
    exact Or.inl (by simpa [runSink] using hx)
  | cons op rest ih =>
    intro x hx
    cases op with
    | publish b =>
      have hx' : x ∈ (runSink
          { slot := some { id := st.next + 1, bytes := b }, next := st.next + 2,
            producerIds := st.next :: (st.next + 1) :: st.producerIds } rest).1.producerIds := by
        simpa [runSink, sinkStep] using hx
      rcases ih _ x hx' with h | h
      · simp only [List.mem_cons] at h
        rcases h with h | h | h
        · exact Or.inr (le_of_eq h.symm)
        · exact Or.inr (by omega)
        · exact Or.inl h
      · exact Or.inr (by simp at h; omega)
    | read =>
      cases hslot : st.slot with
      | some f =>
        have hx' : x ∈ (runSink { st with next := st.next + 1 } rest).1.producerIds := by
          simpa [runSink, sinkStep, hslot] using hx
        rcases ih _ x hx' with h | h
        · exact Or.inl h
        · exact Or.inr (by simp at h; omega)
      | none =>
        have hx' : x ∈ (runSink st rest).1.producerIds := by
          simpa [runSink, sinkStep, hslot] using hx
        exact ih st x hx'

theorem runSink_reads (ops : List SinkOp) (st : SinkState)
    (hinv : ∀ x ∈ st.producerIds, x < st.next) :
    ∀ r ∈ (runSink st ops).2, ∀ f : Frame, r = some f →
      (f.bytes ∈ publishedBytes ops ∨ ∃ g, st.slot = some g ∧ f.bytes = g.bytes)
      ∧ f.id ∉ (runSink st ops).1.producerIds := by
  induction ops generalizing st with
  | nil =>
    intro r hr
    simp [runSink] at hr
  | cons op rest ih =>
    intro r hr f hf
    cases op with
    | publish b =>
      have hst1 : ∀ x ∈ (st.next :: (st.next + 1) :: st.producerIds), x < st.next + 2 := by
        intro x hx
        simp only [List.mem_cons] at hx
        rcases hx with h | h | h
        · omega
        · omega
        · have := hinv x h; omega
      have hr' : r ∈ (runSink
          { slot := some { id := st.next + 1, bytes := b }, next := st.next + 2,
            producerIds := st.next :: (st.next + 1) :: st.producerIds } rest).2 := by
        simpa [runSink, sinkStep] using hr
      have h := ih _ hst1 r hr' f hf
      refine ⟨?_, by simpa [runSink, sinkStep] using h.2⟩
      rcases h.1 with hb | ⟨g, hg, hfg⟩
      · exact Or.inl (by simp [publishedBytes] at hb ⊢; exact Or.inr hb)
      · refine Or.inl ?_
        simp only [Option.some.injEq] at hg
        simp [publishedBytes, ← hg, hfg]
    | read =>
      cases hslot : st.slot with
      | none =>
        have hr' : r = none ∨ r ∈ (runSink st rest).2 := by
          simpa [runSink, sinkStep, hslot] using hr
        rcases hr' with h | h
        · simp [h] at hf
        · have h2 := ih st hinv r h f hf
          refine ⟨?_, by simpa [runSink, sinkStep, hslot] using h2.2⟩
          rcases h2.1 with hb | ⟨g, hg, _⟩
          · exact Or.inl (by simpa [publishedBytes] using hb)
          · rw [hslot] at hg
            simp at hg
      | some g =>
        have hst1 : ∀ x ∈ st.producerIds, x < st.next + 1 := by
          intro x hx
          have := hinv x hx
          omega
        have hr' : r = some { id := st.next, bytes := g.bytes }
            ∨ r ∈ (runSink { st with next := st.next + 1 } rest).2 := by
          simpa [runSink, sinkStep, hslot] using hr
        rcases hr' with h | h
        · have hf2 : f = { id := st.next, bytes := g.bytes } := by
            rw [h] at hf
            exact (Option.some_inj.mp hf).symm
          constructor
          · exact Or.inr ⟨g, rfl, by rw [hf2]⟩
          · rw [hf2]
            intro hmem
            have hmem' : st.next ∈ (runSink { st with next := st.next + 1 } rest).1.producerIds := by
              simpa [runSink, sinkStep, hslot] using hmem
            rcases runSink_producerIds rest _ st.next hmem' with hold | hnew
            · have := hinv st.next (by simpa using hold)
              omega
            · simp at hnew
        · have h2 := ih _ hst1 r h f hf
          refine ⟨?_, by simpa [runSink, sinkStep, hslot] using h2.2⟩
          rcases h2.1 with hb | ⟨g2, hg2, hfg2⟩
          · exact Or.inl (by simpa [publishedBytes] using hb)
          · refine Or.inr ⟨g2, ?_, hfg2⟩
            simp only at hg2
            rw [hslot] at hg2
            exact hg2

/-! ## Claim theorems -/

/-- C1: the facade (claim: "update forwarded to the running session and
applied to the live device") does forward each setter to
`self.worker.set_...` while a session is streaming and never touches a
device node itself — but class `CameraWorker` defines none of
`set_exposure`, `set_gain`, `set_gamma`, `set_gamma_enable`, so every
such forwarded call raises `AttributeError` after the facade has already
emitted `infoChanged`, and no device write happens at all. -/
theorem flir_C1_forward_raises :
    "set_exposure" ∉ cameraWorkerMethods
    ∧ "set_gain" ∉ cameraWorkerMethods
    ∧ "set_gamma" ∉ cameraWorkerMethods
    ∧ "set_gamma_enable" ∉ cameraWorkerMethods
    ∧ (set_exposure streamingController 25000).2.2 = PyResult.exn "AttributeError"
    ∧ (set_gain streamingController 25).2.2 = PyResult.exn "AttributeError"
    ∧ (set_gamma streamingController 1).2.2 = PyResult.exn "AttributeError"
    ∧ (set_gamma_enable streamingController true).2.2 = PyResult.exn "AttributeError"
    ∧ FEv.forward "set_exposure" (PVal.num 25000) ∈ (set_exposure streamingController 25000).2.1
    ∧ countDeviceWrites (set_exposure streamingController 25000).2.1 = 0 := by
  decide

/-- C2 counterexample: the claim reads "Mono8 is replicated into 3
identical channels", i.e. the Mono8 branch selects the gray-replication
conversion; the source instead selects `cv2.applyColorMap` with
`COLORMAP_JET` (a false-color map, a different operation from channel
replication). -/
theorem flir_C2_counterexample :
    convertKernel SrcFormat.Mono8 = ConvKernel.colorMapJet
    ∧ convertKernel SrcFormat.Mono8 ≠ ConvKernel.gray2BGR := by
  decide

/-- C2 amended: Mono8 is rendered with the JET false-color map, not
replicated; each of the four Bayer variants maps to its own
pattern-specific demosaic conversion, and no two of the four share a
kernel. -/
theorem flir_C2_amended :
    convertKernel SrcFormat.Mono8 = ConvKernel.colorMapJet
    ∧ convertKernel SrcFormat.BayerRG8 = ConvKernel.bayerRG2BGR
    ∧ convertKernel SrcFormat.BayerBG8 = ConvKernel.bayerBG2BGR
    ∧ convertKernel SrcFormat.BayerGB8 = ConvKernel.bayerGB2BGR
    ∧ convertKernel SrcFormat.BayerGR8 = ConvKernel.bayerGR2BGR
    ∧ List.Pairwise (fun a b => a ≠ b)
        [convertKernel SrcFormat.BayerRG8, convertKernel SrcFormat.BayerBG8,
         convertKernel SrcFormat.BayerGB8, convertKernel SrcFormat.BayerGR8] := by
  decide

/-- C3: with zero devices, `run` emits the distinct no-camera error event
("Камеры не найдены") without raising, the `finally` cleanup releases the
system handle (camera handle was never acquired), and a subsequent
`stop()` leaves the final state unchanged — a safe no-op. -/
theorem flir_C3_no_device (env : RunEnv)
    (h0 : env.numCameras = 0) (hrel : env.releaseFails = false) :
    (runModel env).2.1 = [RunEv.errorOccurred "Камеры не найдены", RunEv.cleanupEntered]
    ∧ (runModel env).2.2 = PyResult.ok ()
    ∧ (runModel env).1 = { systemHeld := false, cameraHeld := false, running := false }
    ∧ stopModel (runModel env).1 = (runModel env).1 := by
  simp [runModel, cleanupModel, h0, hrel, stopModel]

theorem flir_C3_witness :
    (runModel envNoCamera).2.1 = [RunEv.errorOccurred "Камеры не найдены", RunEv.cleanupEntered]
    ∧ (runModel envNoCamera).2.2 = PyResult.ok ()
    ∧ (runModel envNoCamera).1 = { systemHeld := false, cameraHeld := false, running := false }
    ∧ stopModel (runModel envNoCamera).1 = (runModel envNoCamera).1 :=
  flir_C3_no_device envNoCamera rfl rfl

/-- C4 counterexample: on a fully cooperative device, replaying
`_setup_camera`'s node writes shows the single manual `Gain` write
happens while `GainAuto` holds "Continuous" — auto-gain was switched ON,
not Off, immediately before the manual write (even if the device powered
up with auto-gain "Off"). -/
theorem flir_C4_counterexample :
    trackWrites "GainAuto" "Gain" (setupOps envAll initWorkerConfig) "Off" = ["Continuous"]
    ∧ trackWrites "ExposureAuto" "ExposureTime" (setupOps envAll initWorkerConfig) "Continuous"
        = ["Off"]
    ∧ ("Continuous" : String) ≠ "Off" := by
  decide

/-- C4 amended: the auto-exposure node is set to "Off" before the manual
exposure write (which therefore happens with auto-exposure inactive), but
the auto-gain node is set to "Continuous" before the manual gain write,
so the manual gain write always happens while auto-gain is active. -/
theorem flir_C4_amended (env : SetupEnv) (cfg : WorkerConfig) (s t : String)
    (h1 : env.expAutoAvail = true) (h2 : env.expAutoOffAvail = true)
    (h3 : env.gainAutoAvail = true) (h4 : env.gainAutoContAvail = true) :
    trackWrites "ExposureAuto" "ExposureTime" (setupOps env cfg) s
      = (if env.expAvail then ["Off"] else [])
    ∧ trackWrites "GainAuto" "Gain" (setupOps env cfg) t
      = (if env.gainAvail then ["Continuous"] else []) :=
  ⟨trackWrites_setup_exposure env cfg s h1 h2, trackWrites_setup_gain env cfg t h3 h4⟩

theorem flir_C4_witness :
    (trackWrites "ExposureAuto" "ExposureTime" (setupOps envAll initWorkerConfig) "Continuous"
      = (if envAll.expAvail then ["Off"] else []))
    ∧ (trackWrites "GainAuto" "Gain" (setupOps envAll initWorkerConfig) "Off"
      = (if envAll.gainAvail then ["Continuous"] else [])) :=
  flir_C4_amended envAll initWorkerConfig "Continuous" "Off" rfl rfl rfl rfl

/-- C5 counterexample: on a device reporting an exposure maximum of
10000 us, `_setup_camera` still writes the requested 20000 us to
`ExposureTime` — the exposure setter performs no clamping to the
device-reported range and never applies the reported maximum. -/
theorem flir_C5_counterexample :
    NodeOp.setFloat "ExposureTime" 20000 ∈ setupOps envSmallExp initWorkerConfig
    ∧ NodeOp.setFloat "ExposureTime" envSmallExp.expMax ∉ setupOps envSmallExp initWorkerConfig
    ∧ envSmallExp.expMax < initWorkerConfig.exposureTime := by
  decide

/-- C5 amended: only the packet-size write clamps an above-max request
down to the device-reported maximum, stores the clamped value back and
reports it through `info_updated`, and the frame-rate write clamps to the
node's maximum; the exposure write passes the requested value through
unclamped whatever range the device reports. -/
theorem flir_C5_amended (env : SetupEnv) (cfg : WorkerConfig)
    (h1 : env.psAvail = true) (h2 : env.psWritable = true)
    (h3 : env.psMax < cfg.packetSize)
    (h4 : env.fpsAvail = true) (h5 : env.fpsMax < cfg.targetFps)
    (h6 : env.expAvail = true) :
    NodeOp.setInt "StreamPacketSize" env.psMax ∈ setupOps env cfg
    ∧ SetupEv.infoPacketSize env.psMax ∈ setupEvs env cfg
    ∧ (setupCfgFinal env cfg).packetSize = env.psMax
    ∧ NodeOp.setFloat "AcquisitionFrameRate" env.fpsMax ∈ setupOps env cfg
    ∧ NodeOp.setFloat "ExposureTime" cfg.exposureTime ∈ setupOps env cfg := by
  refine ⟨?_, ?_, ?_, ?_, ?_⟩
  · simp only [setupOps, List.append_assoc, List.mem_append]
    exact Or.inl (by simp [packetSizeOps, h1, h2, not_le.mpr h3])
  · simp only [setupEvs, List.append_assoc, List.mem_append]
    exact Or.inl (by simp [packetSizeEvs, h1, h2, not_le.mpr h3])
  · rw [setupCfgFinal, cfgAfterFps_packetSize, cfgAfterPacket_packetSize_clamped env cfg h1 h2 h3]
  · simp only [setupOps, List.append_assoc, List.mem_append]
    refine Or.inr (Or.inr (Or.inr (Or.inr (Or.inr (Or.inr (Or.inl ?_))))))
    simp [fpsOps, h4, cfgAfterPacket_targetFps, h5]
  · simp only [setupOps, List.append_assoc, List.mem_append]
    refine Or.inr (Or.inr (Or.inr (Or.inr (Or.inr (Or.inr (Or.inr (Or.inr (Or.inl ?_))))))))
    simp [exposureOps, h6, cfgAfterFps_exposureTime, cfgAfterPacket_exposureTime]

theorem flir_C5_witness :
    NodeOp.setInt "StreamPacketSize" envClampWit.psMax ∈ setupOps envClampWit initWorkerConfig
    ∧ SetupEv.infoPacketSize envClampWit.psMax ∈ setupEvs envClampWit initWorkerConfig
    ∧ (setupCfgFinal envClampWit initWorkerConfig).packetSize = envClampWit.psMax
    ∧ NodeOp.setFloat "AcquisitionFrameRate" envClampWit.fpsMax
        ∈ setupOps envClampWit initWorkerConfig
    ∧ NodeOp.setFloat "ExposureTime" initWorkerConfig.exposureTime
        ∈ setupOps envClampWit initWorkerConfig :=
  flir_C5_amended envClampWit initWorkerConfig rfl rfl (by decide) rfl (by decide) rfl

/-- C6 counterexample: `initController` already caches gain 10.0; calling
`set_gain(10.0)` twice fires the `infoChanged` notification twice (the
claim requires exactly one notification and one write for two equal
calls; no equality guard exists in any setter). -/
theorem flir_C6_counterexample :
    initController.gainValue = 10
    ∧ countInfoChanged (set_gain_twice initController 10) = 2
    ∧ countDeviceWrites (set_gain_twice initController 10) = 0 := by
  decide

/-- C6 amended: no facade setter is idempotent-guarded — every call,
equal value or not, unconditionally overwrites the cache and fires
`infoChanged`, so two equal calls fire exactly two notifications (and,
with no session running, zero device writes). -/
theorem flir_C6_amended (c : Controller) (v : ℚ) (b : Bool)
    (h : c.workerRunning = false) :
    countInfoChanged (set_gain_twice c v) = 2
    ∧ countDeviceWrites (set_gain_twice c v) = 0
    ∧ countInfoChanged (set_exposure_twice c v) = 2
    ∧ countDeviceWrites (set_exposure_twice c v) = 0
    ∧ countInfoChanged (set_gamma_twice c v) = 2
    ∧ countDeviceWrites (set_gamma_twice c v) = 0
    ∧ countInfoChanged (set_gamma_enable_twice c b) = 2
    ∧ countDeviceWrites (set_gamma_enable_twice c b) = 0 := by
  simp [set_gain_twice, set_gain, set_exposure_twice, set_exposure,
    set_gamma_twice, set_gamma, set_gamma_enable_twice, set_gamma_enable, h,
    countInfoChanged, countDeviceWrites, isInfoChanged, isDeviceWrite]

theorem flir_C6_witness :
    countInfoChanged (set_gain_twice initController 10) = 2
    ∧ countDeviceWrites (set_gain_twice initController 10) = 0
    ∧ countInfoChanged (set_exposure_twice initController 10) = 2
    ∧ countDeviceWrites (set_exposure_twice initController 10) = 0
    ∧ countInfoChanged (set_gamma_twice initController 10) = 2
    ∧ countDeviceWrites (set_gamma_twice initController 10) = 0
    ∧ countInfoChanged (set_gamma_enable_twice initController true) = 2
    ∧ countDeviceWrites (set_gamma_enable_twice initController true) = 0 :=
  flir_C6_amended initController 10 true rfl

/-- C7 counterexample: for an unknown source format the decode dispatch
does not return `DecodeError::UnsupportedFormat` — the trailing `else`
passes the raw buffer through as the output, so the frame is still
produced (and displayed), not dropped. -/
theorem flir_C7_counterexample :
    decodeTool SrcFormat.Unknown = Except.ok ConvKernel.passthrough
    ∧ decodeTool SrcFormat.Unknown ≠ Except.error DecodeError.unsupportedFormat := by
  refine ⟨rfl, ?_⟩
  intro h
  simp [decodeTool] at h

/-- C7 amended: an unknown format is passed through unchanged as a
successful decode (no error value, frame kept), the dispatch never
produces an error for any format, and a per-frame exception in the
worker's read loop is caught by the inner handler and the loop
continues. -/
theorem flir_C7_amended :
    decodeTool SrcFormat.Unknown = Except.ok ConvKernel.passthrough
    ∧ (∀ f : SrcFormat, decodeTool f ≠ Except.error DecodeError.unsupportedFormat)
    ∧ readLoopStep (FrameOutcome.frameRaises "AttributeError") = ([], true)
    ∧ readLoopStep FrameOutcome.incomplete = ([], true) := by
  refine ⟨rfl, ?_, rfl, rfl⟩
  intro f h
  simp [decodeTool] at h

/-- C8 counterexample: `_cleanup` wraps all release steps in one `try`
with a single `except`; when `EndAcquisition()` raises with the camera
held, the exception is caught (logged) but every remaining step is
skipped: the camera stays held and the system handle is never released —
a leak the claim rules out. -/
theorem flir_C8_counterexample :
    (cleanupModel envEndAcqFail
      { systemHeld := true, cameraHeld := true, running := true }).1.systemHeld = true
    ∧ (cleanupModel envEndAcqFail
      { systemHeld := true, cameraHeld := true, running := true }).1.cameraHeld = true
    ∧ (cleanupModel envEndAcqFail
      { systemHeld := true, cameraHeld := true, running := true }).2 = true := by
  decide

/-- C8 amended: cleanup is invoked on every exit path of `run` (zero
devices, startup failure, normal loop exit) and a failing step is caught
and logged, never re-thrown past `run`; when no step fails both handles
are released; but the steps share one exception handler, so a failing
`EndAcquisition` with the camera held skips the remaining steps and
leaves the system handle exactly as it was (leaked when held). -/
theorem flir_C8_amended (env : RunEnv) (st : WorkerState) :
    RunEv.cleanupEntered ∈ (runModel env).2.1
    ∧ (runModel env).2.2 = PyResult.ok ()
    ∧ (env.endAcqFails = false → env.deInitFails = false → env.releaseFails = false →
        (cleanupModel env st).1.systemHeld = false ∧ (cleanupModel env st).1.cameraHeld = false)
    ∧ (env.endAcqFails = true → st.cameraHeld = true →
        (cleanupModel env st).1.systemHeld = st.systemHeld ∧ (cleanupModel env st).2 = true) := by
  refine ⟨?_, ?_, ?_, ?_⟩
  · unfold runModel
    split
    · simp
    · cases env.startupFails <;> simp
  · unfold runModel
    split
    · simp
    · cases env.startupFails <;> simp
  · intro hA hD hR
    unfold cleanupModel
    by_cases hc : st.cameraHeld <;> by_cases hs : st.systemHeld <;>
      simp [hA, hD, hR, hc, hs]
  · intro hA hc
    unfold cleanupModel
    simp [hA, hc]

theorem flir_C8_witness :
    RunEv.cleanupEntered ∈ (runModel envEndAcqFail).2.1
    ∧ (runModel envEndAcqFail).2.2 = PyResult.ok ()
    ∧ ((cleanupModel envNoCamera
          { systemHeld := true, cameraHeld := true, running := true }).1.systemHeld = false
        ∧ (cleanupModel envNoCamera
          { systemHeld := true, cameraHeld := true, running := true }).1.cameraHeld = false)
    ∧ ((cleanupModel envEndAcqFail
          { systemHeld := true, cameraHeld := true, running := true }).1.systemHeld
        = ({ systemHeld := true, cameraHeld := true, running := true } : WorkerState).systemHeld
        ∧ (cleanupModel envEndAcqFail
          { systemHeld := true, cameraHeld := true, running := true }).2 = true) :=
  ⟨(flir_C8_amended envEndAcqFail ⟨true, true, true⟩).1,
   (flir_C8_amended envEndAcqFail ⟨true, true, true⟩).2.1,
   (flir_C8_amended envNoCamera ⟨true, true, true⟩).2.2.1 rfl rfl rfl,
   (flir_C8_amended envEndAcqFail ⟨true, true, true⟩).2.2.2 rfl rfl⟩

/-- C9: over any serialization of the mutex-protected publish and read
critical sections, every frame the consumer observes carries exactly the
byte buffer of one published frame (never a torn mixture), and its buffer
identity is distinct from every buffer the producer side ever held — the
consumer always receives a copy, never an alias. -/
theorem flir_C9_sink (ops : List SinkOp) (r : Option Frame)
    (hr : r ∈ (runSink initSink ops).2) (f : Frame) (hf : r = some f) :
    f.bytes ∈ publishedBytes ops
    ∧ f.id ∉ (runSink initSink ops).1.producerIds := by
  have h := runSink_reads ops initSink (by simp [initSink]) r hr f hf
  rcases h with ⟨hb | ⟨g, hg, _⟩, hid⟩
  · exact ⟨hb, hid⟩
  · simp [initSink] at hg

theorem flir_C9_witness :
    (Frame.mk 2 [1, 2, 3]).bytes ∈ publishedBytes [SinkOp.publish [1, 2, 3], SinkOp.read]
    ∧ (Frame.mk 2 [1, 2, 3]).id
        ∉ (runSink initSink [SinkOp.publish [1, 2, 3], SinkOp.read]).1.producerIds :=
  flir_C9_sink [SinkOp.publish [1, 2, 3], SinkOp.read] (some (Frame.mk 2 [1, 2, 3]))
    (by decide) (Frame.mk 2 [1, 2, 3]) rfl

/-- C10: with no capture session running, each facade setter still
overwrites its cached value and the info-map entry, emits exactly one
`infoChanged` notification (and nothing else — in particular no device
write), and returns `False`. -/
theorem flir_C10_offline_setters (c : Controller) (v : ℚ) (b : Bool)
    (h : c.workerRunning = false) :
    (set_gain c v).2.2 = PyResult.ok false
    ∧ (set_gain c v).1.gainValue = v
    ∧ (set_gain c v).1.info.gain = v
    ∧ (set_gain c v).2.1 = [FEv.infoChanged]
    ∧ (set_exposure c v).2.2 = PyResult.ok false
    ∧ (set_exposure c v).1.exposureValue = v
    ∧ (set_exposure c v).1.info.exposure = v
    ∧ (set_exposure c v).2.1 = [FEv.infoChanged]
    ∧ (set_gamma c v).2.2 = PyResult.ok false
    ∧ (set_gamma c v).1.gammaValue = v
    ∧ (set_gamma c v).1.info.gamma = v
    ∧ (set_gamma c v).2.1 = [FEv.infoChanged]
    ∧ (set_gamma_enable c b).2.2 = PyResult.ok false
    ∧ (set_gamma_enable c b).1.gammaEnabled = b
    ∧ (set_gamma_enable c b).1.info.gammaEnabled = b
    ∧ (set_gamma_enable c b).2.1 = [FEv.infoChanged] := by
  simp [set_gain, set_exposure, set_gamma, set_gamma_enable, h]

theorem flir_C10_witness :
    (set_gain initController 42).2.2 = PyResult.ok false
    ∧ (set_gain initController 42).1.gainValue = 42
    ∧ (set_gain initController 42).1.info.gain = 42
    ∧ (set_gain initController 42).2.1 = [FEv.infoChanged]
    ∧ (set_exposure initController 42).2.2 = PyResult.ok false
    ∧ (set_exposure initController 42).1.exposureValue = 42
    ∧ (set_exposure initController 42).1.info.exposure = 42
    ∧ (set_exposure initController 42).2.1 = [FEv.infoChanged]
    ∧ (set_gamma initController 42).2.2 = PyResult.ok false
    ∧ (set_gamma initController 42).1.gammaValue = 42
    ∧ (set_gamma initController 42).1.info.gamma = 42
    ∧ (set_gamma initController 42).2.1 = [FEv.infoChanged]
    ∧ (set_gamma_enable initController true).2.2 = PyResult.ok false
    ∧ (set_gamma_enable initController true).1.gammaEnabled = true
    ∧ (set_gamma_enable initController true).1.info.gammaEnabled = true
    ∧ (set_gamma_enable initController true).2.1 = [FEv.infoChanged] :=
  flir_C10_offline_setters initController 42 true rfl

end FlirDebug
